import Mathlib

/-!
Verification of the Mergington High School extracurricular-activity
enrollment registry (`src/app.py`).

The registry is the module-level dict `activities`, mapping an activity
name to a record with `description`, `schedule`, `max_participants` and
`participants`.  We embed the dict as an association list preserving
insertion order (Python dicts preserve insertion order and have unique
keys), and the three route handlers as pure functions that take the
registry as input and return the HTTP response together with the
registry after the call (the handlers mutate the shared dict in place;
error paths `raise` before any mutation, so they return the registry
unchanged).
-/

/-- One activity record, mirroring the dict values of `activities` in
`app.py`: description, schedule, max_participants, participants. -/
structure Activity where
  description : String
  schedule : String
  max_participants : Nat
  participants : List String
deriving Repr, DecidableEq

/-- The in-memory activity database: a name-keyed mapping embedded as an
insertion-ordered association list. -/
abbrev Registry := List (String × Activity)

/-- A FastAPI `HTTPException(status_code=..., detail=...)`. -/
structure HTTPError where
  status_code : Nat
  detail : String
deriving Repr, DecidableEq

/-- In-place mutation of `activities[name]["participants"]`: every entry
whose key is `name` gets its participants list replaced by `ps`; all
other fields and all other entries are untouched. -/
def updateParticipants (reg : Registry) (name : String) (ps : List String) : Registry :=
  reg.map (fun e => if e.1 = name then (e.1, { e.2 with participants := ps }) else e)

/-- The seed dataset `activities` of `app.py` (9 activities). -/
def activities : Registry :=
  [ ("Chess Club",
     { description := "Learn strategies and compete in chess tournaments"
       schedule := "Fridays, 3:30 PM - 5:00 PM"
       max_participants := 12
       participants := ["michael@mergington.edu", "daniel@mergington.edu"] }),
    ("Programming Class",
     { description := "Learn programming fundamentals and build software projects"
       schedule := "Tuesdays and Thursdays, 3:30 PM - 4:30 PM"
       max_participants := 20
       participants := ["emma@mergington.edu", "sophia@mergington.edu"] }),
    ("Gym Class",
     { description := "Physical education and sports activities"
       schedule := "Mondays, Wednesdays, Fridays, 2:00 PM - 3:00 PM"
       max_participants := 30
       participants := ["john@mergington.edu", "olivia@mergington.edu"] }),
    ("Basketball",
     { description := "Learn basketball skills and participate in friendly games"
       schedule := "Mondays and Wednesdays, 4:00 PM - 5:30 PM"
       max_participants := 15
       participants := ["james@mergington.edu"] }),
    ("Tennis Club",
     { description := "Tennis coaching and competitive matches"
       schedule := "Tuesdays and Thursdays, 4:00 PM - 5:30 PM"
       max_participants := 8
       participants := ["alex@mergington.edu"] }),
    ("Art Studio",
     { description := "Painting, drawing, and mixed media art projects"
       schedule := "Wednesdays and Fridays, 3:30 PM - 5:00 PM"
       max_participants := 18
       participants := ["isabella@mergington.edu", "grace@mergington.edu"] }),
    ("Drama Club",
     { description := "Theater performances and acting workshops"
       schedule := "Mondays and Thursdays, 3:30 PM - 5:00 PM"
       max_participants := 25
       participants := ["lucas@mergington.edu"] }),
    ("Debate Team",
     { description := "Competitive debate and public speaking skills"
       schedule := "Tuesdays, 3:30 PM - 5:00 PM"
       max_participants := 16
       participants := ["aaron@mergington.edu", "mia@mergington.edu"] }),
    ("Science Olympiad",
     { description := "STEM competitions and scientific research projects"
       schedule := "Fridays, 3:30 PM - 5:00 PM"
       max_participants := 20
       participants := ["ryan@mergington.edu"] }) ]

/-- `GET /activities` (`get_activities` in `app.py`): returns the live
registry, with no filtering. -/
def get_activities (reg : Registry) : Registry := reg

/-- `POST /activities/.../signup` (`signup_for_activity` in `app.py`):
404 if the activity name is not a key; 400 if the email is already a
participant; otherwise appends the email to the participants list and
returns the success message. -/
def signup_for_activity (reg : Registry) (activity_name email : String) :
    Except HTTPError String × Registry :=
  match reg.lookup activity_name with
  | none => (.error { status_code := 404, detail := "Activity not found" }, reg)
  | some activity =>
    if email ∈ activity.participants then
      (.error { status_code := 400,
                detail := "Student already signed up for this activity" }, reg)
    else
      (.ok ("Signed up " ++ email ++ " for " ++ activity_name),
       updateParticipants reg activity_name (activity.participants ++ [email]))

/-- `POST /activities/.../unregister` (`unregister_from_activity` in
`app.py`): 404 if the activity name is not a key; 400 if the email is
not a participant; otherwise removes the first occurrence of the email
(Python `list.remove`) and returns the success message. -/
def unregister_from_activity (reg : Registry) (activity_name email : String) :
    Except HTTPError String × Registry :=
  match reg.lookup activity_name with
  | none => (.error { status_code := 404, detail := "Activity not found" }, reg)
  | some activity =>
    if email ∈ activity.participants then
      (.ok ("Unregistered " ++ email ++ " from " ++ activity_name),
       updateParticipants reg activity_name (activity.participants.erase email))
    else
      (.error { status_code := 400,
                detail := "Student is not signed up for this activity" }, reg)

/-- Every activity's participants list in the registry is free of
duplicates. -/
def NoDupRegistry (reg : Registry) : Prop :=
  ∀ e ∈ reg, e.2.participants.Nodup

instance : DecidablePred NoDupRegistry := fun reg =>
  inferInstanceAs (Decidable (∀ e ∈ reg, e.2.participants.Nodup))

/-! ### Helper lemmas about lookup and updateParticipants -/

theorem lookup_mem {reg : Registry} {A : String} {act : Activity}
    (h : reg.lookup A = some act) : (A, act) ∈ reg := by
  induction reg with
  | nil => simp at h
  | cons e t ih =>
    rw [List.lookup_cons] at h
    by_cases hk : A == e.1
    · simp [hk] at h
      rcases e with ⟨k, v⟩
      simp at hk
      simp [hk, ← h]
    · simp [hk] at h
      exact List.mem_cons_of_mem _ (ih h)

theorem updateParticipants_cons (k : String) (v : Activity) (t : Registry)
    (A : String) (ps : List String) :
    updateParticipants ((k, v) :: t) A ps =
      (if k = A then (k, { v with participants := ps }) else (k, v)) ::
        updateParticipants t A ps := rfl

theorem lookup_updateParticipants_self (reg : Registry) (A : String) (ps : List String) :
    (updateParticipants reg A ps).lookup A =
      (reg.lookup A).map (fun act => { act with participants := ps }) := by
  induction reg with
  | nil => rfl
  | cons e t ih =>
    rcases e with ⟨k, v⟩
    rw [updateParticipants_cons]
    by_cases hk : k = A
    · subst hk
      simp [List.lookup_cons]
    · have hk2 : (A == k) = false := by
        rw [beq_eq_false_iff_ne]
        exact fun h => hk h.symm
      simp [hk, List.lookup_cons, hk2, ih]

theorem lookup_updateParticipants_ne (reg : Registry) (A B : String) (ps : List String)
    (h : B ≠ A) :
    (updateParticipants reg A ps).lookup B = reg.lookup B := by
  induction reg with
  | nil => rfl
  | cons e t ih =>
    rcases e with ⟨k, v⟩
    rw [updateParticipants_cons]
    by_cases hk : k = A
    · subst hk
      have hk2 : (B == k) = false := by
        rw [beq_eq_false_iff_ne]
        exact h
      simp [List.lookup_cons, hk2, ih]
    · simp [hk, List.lookup_cons, ih]

theorem keys_updateParticipants (reg : Registry) (A : String) (ps : List String) :
    (updateParticipants reg A ps).map Prod.fst = reg.map Prod.fst := by
  simp only [updateParticipants, List.map_map]
  apply List.map_congr_left
  intro e _
  by_cases hk : e.1 = A <;> simp [hk]

theorem noDup_updateParticipants {reg : Registry} {A : String} {ps : List String}
    (hreg : NoDupRegistry reg) (hps : ps.Nodup) :
    NoDupRegistry (updateParticipants reg A ps) := by
  intro e he
  simp only [updateParticipants, List.mem_map] at he
  obtain ⟨e0, he0, heq⟩ := he
  by_cases hk : e0.1 = A
  · simp [hk] at heq
    rw [← heq]
    exact hps
  · simp [hk] at heq
    rw [← heq]
    exact hreg e0 he0

theorem signup_eq_of_not_mem {reg : Registry} {A p : String} {act : Activity}
    (hA : reg.lookup A = some act) (hp : p ∉ act.participants) :
    signup_for_activity reg A p =
      (.ok ("Signed up " ++ p ++ " for " ++ A),
       updateParticipants reg A (act.participants ++ [p])) := by
  simp [signup_for_activity, hA, hp]

/-! ### Claim theorems -/

/-- Claim C1: for every activity name `A` that is a key of the registry and
every participant `p` not in `A`'s participants list, signup appends `p` to
the participants list (so `p` is a member afterwards) and returns the
success message "Signed up {email} for {activity_name}". -/
theorem signup_success (reg : Registry) (A p : String) (act : Activity)
    (hA : reg.lookup A = some act) (hp : p ∉ act.participants) :
    (signup_for_activity reg A p).1 = .ok ("Signed up " ++ p ++ " for " ++ A) ∧
    ∃ act2, (signup_for_activity reg A p).2.lookup A = some act2 ∧
      act2 = { act with participants := act.participants ++ [p] } ∧
      p ∈ act2.participants := by
  have h1 := signup_eq_of_not_mem hA hp
  refine ⟨by rw [h1], { act with participants := act.participants ++ [p] }, ?_, rfl, by simp⟩
  rw [h1]
  simp [lookup_updateParticipants_self, hA]

/-- Claim C1 witness: signing up a new student for Chess Club in the seed
registry succeeds with the expected message. -/
theorem signup_success_witness :
    (signup_for_activity activities "Chess Club" "newstudent@mergington.edu").1 =
      .ok "Signed up newstudent@mergington.edu for Chess Club" :=
  (signup_success activities "Chess Club" "newstudent@mergington.edu" _ rfl (by decide)).1

/-- Claim C2: signup raises only the NotFound (404) and AlreadyEnrolled
(400) errors; for an existing activity and a fresh participant it succeeds
even when the participants list has reached or exceeded `max_participants`
(capacity is never consulted, no Full error exists). -/
theorem signup_no_capacity_check :
    (∀ reg A p err, (signup_for_activity reg A p).1 = .error err →
        err = { status_code := 404, detail := "Activity not found" } ∨
        err = { status_code := 400,
                detail := "Student already signed up for this activity" }) ∧
    (∀ reg A p act, reg.lookup A = some act → p ∉ act.participants →
        act.max_participants ≤ act.participants.length →
        (signup_for_activity reg A p).1 =
          .ok ("Signed up " ++ p ++ " for " ++ A)) := by
  constructor
  · intro reg A p err herr
    cases hl : reg.lookup A with
    | none =>
      simp [signup_for_activity, hl] at herr
      exact Or.inl herr.symm
    | some act =>
      by_cases hp : p ∈ act.participants
      · simp [signup_for_activity, hl, hp] at herr
        exact Or.inr herr.symm
      · simp [signup_for_activity, hl, hp] at herr
  · intro reg A p act hA hp _
    simp [signup_for_activity, hA, hp]

/-- Claim C2 witness: an activity at full capacity (1 of 1 seats taken)
still accepts a new signup. -/
theorem signup_no_capacity_check_witness :
    (signup_for_activity
        [("Full Club", { description := "d", schedule := "s",
                         max_participants := 1, participants := ["a@x"] })]
        "Full Club" "b@x").1 =
      .ok "Signed up b@x for Full Club" :=
  signup_no_capacity_check.2 _ "Full Club" "b@x" _ rfl (by decide) (by decide)

/-- Claim C3: for every activity `A` in the registry and participant `p`
already present in `A`'s participants list, signup fails with HTTP 400,
detail "Student already signed up for this activity", and returns the
registry unchanged. -/
theorem signup_already_enrolled (reg : Registry) (A p : String) (act : Activity)
    (hA : reg.lookup A = some act) (hp : p ∈ act.participants) :
    signup_for_activity reg A p =
      (.error { status_code := 400,
                detail := "Student already signed up for this activity" }, reg) := by
  simp [signup_for_activity, hA, hp]

/-- Claim C3 witness: re-signing up michael for Chess Club in the seed
registry yields the 400 error and leaves the registry unchanged. -/
theorem signup_already_enrolled_witness :
    signup_for_activity activities "Chess Club" "michael@mergington.edu" =
      (.error { status_code := 400,
                detail := "Student already signed up for this activity" }, activities) :=
  signup_already_enrolled activities "Chess Club" "michael@mergington.edu" _ rfl (by decide)

/-- Claim C4: for every activity name that is not a key of the registry,
signup fails with HTTP 404, detail "Activity not found", and returns the
registry unchanged. -/
theorem signup_not_found (reg : Registry) (A p : String)
    (hA : reg.lookup A = none) :
    signup_for_activity reg A p =
      (.error { status_code := 404, detail := "Activity not found" }, reg) := by
  simp [signup_for_activity, hA]

/-- Claim C4 witness: signing up for a nonexistent activity in the seed
registry yields the 404 error and leaves the registry unchanged. -/
theorem signup_not_found_witness :
    signup_for_activity activities "Nonexistent Activity" "student@mergington.edu" =
      (.error { status_code := 404, detail := "Activity not found" }, activities) :=
  signup_not_found activities "Nonexistent Activity" "student@mergington.edu" rfl

/-- Claim C5: unregister fails with 404 "Activity not found" exactly when
the activity name is not a key; fails with 400 "Student is not signed up
for this activity" exactly when the activity exists but the participant is
absent, leaving the registry unchanged in both error cases; otherwise it
removes the participant (first occurrence; no longer a member when the
list is duplicate-free) and returns "Unregistered {email} from
{activity_name}". -/
theorem unregister_spec :
    (∀ reg A p, reg.lookup A = none →
        unregister_from_activity reg A p =
          (.error { status_code := 404, detail := "Activity not found" }, reg)) ∧
    (∀ reg A p act, reg.lookup A = some act → p ∉ act.participants →
        unregister_from_activity reg A p =
          (.error { status_code := 400,
                    detail := "Student is not signed up for this activity" }, reg)) ∧
    (∀ reg A p act, reg.lookup A = some act → p ∈ act.participants →
        (unregister_from_activity reg A p).1 =
          .ok ("Unregistered " ++ p ++ " from " ++ A) ∧
        ∃ act2, (unregister_from_activity reg A p).2.lookup A = some act2 ∧
          act2 = { act with participants := act.participants.erase p } ∧
          (act.participants.Nodup → p ∉ act2.participants)) := by
  refine ⟨fun reg A p hA => by simp [unregister_from_activity, hA],
          fun reg A p act hA hp => by simp [unregister_from_activity, hA, hp],
          fun reg A p act hA hp => ?_⟩
  have h1 : unregister_from_activity reg A p =
      (.ok ("Unregistered " ++ p ++ " from " ++ A),
       updateParticipants reg A (act.participants.erase p)) := by
    simp [unregister_from_activity, hA, hp]
  refine ⟨by rw [h1], { act with participants := act.participants.erase p }, ?_, rfl, ?_⟩
  · rw [h1]
    simp [lookup_updateParticipants_self, hA]
  · intro hnd
    simpa using hnd.not_mem_erase

/-- Claim C5 witness: unregistering michael from Chess Club in the seed
registry succeeds with the expected message. -/
theorem unregister_spec_witness :
    (unregister_from_activity activities "Chess Club" "michael@mergington.edu").1 =
      .ok "Unregistered michael@mergington.edu from Chess Club" :=
  (unregister_spec.2.2 activities "Chess Club" "michael@mergington.edu" _ rfl (by decide)).1

/-- Claim C6: the no-duplicates invariant: every seed activity's
participants list is duplicate-free, and list_activities, signup and
unregister (on any argument, success or error) preserve the property that
no activity's participants list contains a duplicate. -/
theorem noDup_invariant :
    NoDupRegistry activities ∧
    (∀ reg, NoDupRegistry reg → NoDupRegistry (get_activities reg)) ∧
    (∀ reg A p, NoDupRegistry reg → NoDupRegistry (signup_for_activity reg A p).2) ∧
    (∀ reg A p, NoDupRegistry reg →
        NoDupRegistry (unregister_from_activity reg A p).2) := by
  refine ⟨by decide, fun reg h => h, ?_, ?_⟩
  · intro reg A p hreg
    cases hl : reg.lookup A with
    | none => simpa [signup_for_activity, hl] using hreg
    | some act =>
      by_cases hp : p ∈ act.participants
      · simpa [signup_for_activity, hl, hp] using hreg
      · have hnd : act.participants.Nodup := hreg (A, act) (lookup_mem hl)
        have hps : (act.participants ++ [p]).Nodup := by
          rw [List.nodup_append]
          refine ⟨hnd, List.nodup_singleton p, ?_⟩
          intro x hx hx2
          simp at hx2
          subst hx2
          exact hp hx
        simpa [signup_for_activity, hl, hp] using
          noDup_updateParticipants hreg hps
  · intro reg A p hreg
    cases hl : reg.lookup A with
    | none => simpa [unregister_from_activity, hl] using hreg
    | some act =>
      by_cases hp : p ∈ act.participants
      · have hnd : act.participants.Nodup := hreg (A, act) (lookup_mem hl)
        simpa [unregister_from_activity, hl, hp] using
          noDup_updateParticipants hreg (hnd.erase p)
      · simpa [unregister_from_activity, hl, hp] using hreg

/-- Claim C6 witness: after signing a new student up for Chess Club in the
seed registry, no participants list has a duplicate. -/
theorem noDup_invariant_witness :
    NoDupRegistry (signup_for_activity activities "Chess Club" "newstudent@mergington.edu").2 :=
  noDup_invariant.2.2.1 activities "Chess Club" "newstudent@mergington.edu" (by decide)

/-- Claim C7: re-registration works: for every activity `A` in the
registry and participant `p` currently in `A`'s (duplicate-free)
participants list, unregister then signup both succeed and `p` is a member
of `A`'s participants list again. -/
theorem reregister_after_unregister (reg : Registry) (A p : String) (act : Activity)
    (hA : reg.lookup A = some act) (hp : p ∈ act.participants)
    (hnd : act.participants.Nodup) :
    (unregister_from_activity reg A p).1 =
      .ok ("Unregistered " ++ p ++ " from " ++ A) ∧
    (signup_for_activity (unregister_from_activity reg A p).2 A p).1 =
      .ok ("Signed up " ++ p ++ " for " ++ A) ∧
    ∃ act2,
      (signup_for_activity (unregister_from_activity reg A p).2 A p).2.lookup A =
        some act2 ∧
      p ∈ act2.participants := by
  have h1 : unregister_from_activity reg A p =
      (.ok ("Unregistered " ++ p ++ " from " ++ A),
       updateParticipants reg A (act.participants.erase p)) := by
    simp [unregister_from_activity, hA, hp]
  have hA1 : (unregister_from_activity reg A p).2.lookup A =
      some { act with participants := act.participants.erase p } := by
    rw [h1]
    simp [lookup_updateParticipants_self, hA]
  have hp1 : p ∉ ({ act with participants := act.participants.erase p } :
      Activity).participants := by
    simpa using hnd.not_mem_erase
  have h2 := signup_eq_of_not_mem hA1 hp1
  refine ⟨by rw [h1], by rw [h2], ?_⟩
  refine ⟨{ act with participants := act.participants.erase p ++ [p] }, ?_, by simp⟩
  rw [h2]
  simp [lookup_updateParticipants_self, hA1]

/-- Claim C7 witness: michael, unregistered from Chess Club in the seed
registry, can sign up again successfully. -/
theorem reregister_after_unregister_witness :
    (signup_for_activity
        (unregister_from_activity activities "Chess Club" "michael@mergington.edu").2
        "Chess Club" "michael@mergington.edu").1 =
      .ok "Signed up michael@mergington.edu for Chess Club" :=
  (reregister_after_unregister activities "Chess Club" "michael@mergington.edu" _
    rfl (by decide) (by decide)).2.1

/-- Claim C8: list_activities always succeeds and returns the full current
registry with no filtering; the seed key set is exactly the 9 activity
names, and signup/unregister never add or remove a key, so every reachable
state keeps exactly those 9 names. -/
theorem list_activities_snapshot :
    (∀ reg, get_activities reg = reg) ∧
    activities.map Prod.fst =
      ["Chess Club", "Programming Class", "Gym Class", "Basketball", "Tennis Club",
       "Art Studio", "Drama Club", "Debate Team", "Science Olympiad"] ∧
    (∀ reg A p, (signup_for_activity reg A p).2.map Prod.fst = reg.map Prod.fst) ∧
    (∀ reg A p,
        (unregister_from_activity reg A p).2.map Prod.fst = reg.map Prod.fst) := by
  refine ⟨fun reg => rfl, rfl, ?_, ?_⟩
  · intro reg A p
    cases hl : reg.lookup A with
    | none => simp [signup_for_activity, hl]
    | some act =>
      by_cases hp : p ∈ act.participants
      · simp [signup_for_activity, hl, hp]
      · simp [signup_for_activity, hl, hp, keys_updateParticipants]
  · intro reg A p
    cases hl : reg.lookup A with
    | none => simp [unregister_from_activity, hl]
    | some act =>
      by_cases hp : p ∈ act.participants
      · simp [unregister_from_activity, hl, hp, keys_updateParticipants]
      · simp [unregister_from_activity, hl, hp]

/-- Claim C9: frame property: a successful signup or unregister changes
only the target activity's participants list; its description, schedule
and max_participants are unchanged, and every other activity name looks
up to exactly the record it had before. -/
theorem frame_property :
    (∀ reg A p act, reg.lookup A = some act → p ∉ act.participants →
        (∀ B, B ≠ A →
            (signup_for_activity reg A p).2.lookup B = reg.lookup B) ∧
        (signup_for_activity reg A p).2.lookup A =
          some { description := act.description, schedule := act.schedule,
                 max_participants := act.max_participants,
                 participants := act.participants ++ [p] }) ∧
    (∀ reg A p act, reg.lookup A = some act → p ∈ act.participants →
        (∀ B, B ≠ A →
            (unregister_from_activity reg A p).2.lookup B = reg.lookup B) ∧
        (unregister_from_activity reg A p).2.lookup A =
          some { description := act.description, schedule := act.schedule,
                 max_participants := act.max_participants,
                 participants := act.participants.erase p }) := by
  constructor
  · intro reg A p act hA hp
    have h1 := signup_eq_of_not_mem hA hp
    constructor
    · intro B hB
      rw [h1]
      exact lookup_updateParticipants_ne reg A B _ hB
    · rw [h1]
      simp [lookup_updateParticipants_self, hA]
  · intro reg A p act hA hp
    have h1 : unregister_from_activity reg A p =
        (.ok ("Unregistered " ++ p ++ " from " ++ A),
         updateParticipants reg A (act.participants.erase p)) := by
      simp [unregister_from_activity, hA, hp]
    constructor
    · intro B hB
      rw [h1]
      exact lookup_updateParticipants_ne reg A B _ hB
    · rw [h1]
      simp [lookup_updateParticipants_self, hA]

/-- Claim C9 witness: signing a new student up for Chess Club leaves the
Tennis Club record exactly as it was in the seed registry. -/
theorem frame_property_witness :
    (signup_for_activity activities
        "Chess Club" "newstudent@mergington.edu").2.lookup "Tennis Club" =
      activities.lookup "Tennis Club" :=
  (frame_property.1 activities "Chess Club" "newstudent@mergington.edu" _
      rfl (by decide)).1 "Tennis Club" (by decide)

/-- Claim C10: exact state restoration: for an activity `A` and a
participant `p` not yet enrolled, signup then unregister restores `A`'s
record (hence its participants list, same elements in the same order)
exactly: signup appends `p` at the end and unregister removes the first
occurrence, which is that appended `p`. -/
theorem signup_unregister_roundtrip (reg : Registry) (A p : String) (act : Activity)
    (hA : reg.lookup A = some act) (hp : p ∉ act.participants) :
    (unregister_from_activity (signup_for_activity reg A p).2 A p).1 =
      .ok ("Unregistered " ++ p ++ " from " ++ A) ∧
    (unregister_from_activity (signup_for_activity reg A p).2 A p).2.lookup A =
      some act := by
  have h1 := signup_eq_of_not_mem hA hp
  have hA1 : (signup_for_activity reg A p).2.lookup A =
      some { act with participants := act.participants ++ [p] } := by
    rw [h1]
    simp [lookup_updateParticipants_self, hA]
  have hp1 : p ∈ ({ act with participants := act.participants ++ [p] } :
      Activity).participants := by simp
  have h2 : unregister_from_activity (signup_for_activity reg A p).2 A p =
      (.ok ("Unregistered " ++ p ++ " from " ++ A),
       updateParticipants (signup_for_activity reg A p).2 A
         ((act.participants ++ [p]).erase p)) := by
    simp [unregister_from_activity, hA1, hp1]
  have herase : (act.participants ++ [p]).erase p = act.participants := by
    rw [List.erase_append_right _ (by simpa using hp)]
    simp
  refine ⟨by rw [h2], ?_⟩
  rw [h2, herase]
  simp [lookup_updateParticipants_self, hA1]

/-- Claim C10 witness: signing testuser up for Basketball and then
unregistering them restores the seed Basketball record exactly. -/
theorem signup_unregister_roundtrip_witness :
    (unregister_from_activity
        (signup_for_activity activities "Basketball" "testuser@mergington.edu").2
        "Basketball" "testuser@mergington.edu").2.lookup "Basketball" =
      some { description := "Learn basketball skills and participate in friendly games"
             schedule := "Mondays and Wednesdays, 4:00 PM - 5:30 PM"
             max_participants := 15
             participants := ["james@mergington.edu"] } :=
  (signup_unregister_roundtrip activities "Basketball" "testuser@mergington.edu" _
    rfl (by decide)).2
